import Mathlib

set_option linter.unusedVariables false

/-!
Shallow embedding of the SAML response validator of the `sso` package
(`NewValidator`, `validator.ValidateSignature`, `validator.ValidateResponse`,
`validator.validateSignature`, `validator.validateAssertionSignature`),
together with theorems checking the specification's claims against it.

External collaborators (the `etree`, `goxmldsig`, `etreeutils`,
`encoding/base64`, `encoding/xml`, `crypto/x509` and `time` libraries) are
modelled as a bundle of abstract functions (`Ext`); the validator's own
control flow is translated line by line from the source.
-/

namespace Sso

mutual

/-- XML element tree, modelling `etree.Element`. `ns` is the element's
resolved namespace (the source resolves prefixes through
`etreeutils.NSContext`; we carry the resolved namespace directly) and
`tag` its local name. Children are a mutually inductive list so that all
functions below are structurally recursive and kernel-reducible. -/
inductive Xelem where
  | node (ns : String) (tag : String) (children : Xlist)
deriving Repr

/-- Child list of an `Xelem` (the element tokens of `etree.Element.Child`). -/
inductive Xlist where
  | nil
  | cons (hd : Xelem) (tl : Xlist)
deriving Repr

end

mutual

def Xelem.decEq : (a b : Xelem) → Decidable (a = b)
  | .node n1 t1 c1, .node n2 t2 c2 =>
    match String.decEq n1 n2 with
    | isFalse h => isFalse (by simp [h])
    | isTrue h1 =>
      match String.decEq t1 t2 with
      | isFalse h => isFalse (by simp [h])
      | isTrue h2 =>
        match Xlist.decEq c1 c2 with
        | isFalse h => isFalse (by simp [h])
        | isTrue h3 => isTrue (by rw [h1, h2, h3])

def Xlist.decEq : (as bs : Xlist) → Decidable (as = bs)
  | .nil, .nil => isTrue rfl
  | .nil, .cons _ _ => isFalse nofun
  | .cons _ _, .nil => isFalse nofun
  | .cons a as, .cons b bs =>
    match Xelem.decEq a b with
    | isFalse h => isFalse (by simp [h])
    | isTrue h1 =>
      match Xlist.decEq as bs with
      | isFalse h => isFalse (by simp [h])
      | isTrue h2 => isTrue (by rw [h1, h2])

end

instance : DecidableEq Xelem := Xelem.decEq

instance : DecidableEq Xlist := Xlist.decEq

def Xelem.ns : Xelem → String
  | .node n _ _ => n

def Xelem.tag : Xelem → String
  | .node _ t _ => t

def Xelem.children : Xelem → Xlist
  | .node _ _ c => c

def Xelem.setChildren : Xelem → Xlist → Xelem
  | .node n t _, c => .node n t c

/-- List concatenation on child lists (`etree.Element.AddChild` appends at
the end of the child list). -/
def Xlist.append : Xlist → Xlist → Xlist
  | .nil, ys => ys
  | .cons x xs, ys => .cons x (xs.append ys)

/-- Removal of a child, modelling `etree.Element.RemoveChild`: the source
removes the child token identified by pointer; in this value model the
first occurrence equal to the element is removed. -/
def Xlist.removeChild : Xlist → Xelem → Xlist
  | .nil, _ => .nil
  | .cons c cs, x => if c = x then cs else .cons c (cs.removeChild x)

instance exceptDecEq {ε α : Type} [DecidableEq ε] [DecidableEq α] :
    DecidableEq (Except ε α) := fun a b =>
  match a, b with
  | .ok x, .ok y => if h : x = y then isTrue (by rw [h]) else isFalse (by simp [h])
  | .error x, .error y => if h : x = y then isTrue (by rw [h]) else isFalse (by simp [h])
  | .ok _, .error _ => isFalse nofun
  | .error _, .ok _ => isFalse nofun

/-- Errors of the validation pipeline. `missingSignature` models the
sentinel `dsig.ErrMissingSignature`; `wrap` models `errors.Wrap`; `msg`
models `errors.New` / `errors.Errorf`; `lib` models any other error value
produced by an external library. -/
inductive Err where
  | missingSignature
  | msg (s : String)
  | lib (s : String)
  | wrap (context : String) (cause : Err)
deriving DecidableEq, Repr

/-- Response status, modelled from the spec: an enumerated outcome of the
identity-provider response; only `success` may proceed (the `Status` type
and its `Success` constant are not under src/). -/
inductive Status where
  | success
  | requester
  | responder
  | versionMismatch
deriving DecidableEq, Repr

structure Conditions where
  notBefore : String
  notOnOrAfter : String
deriving DecidableEq, Repr

structure Subject where
  nameID : String
deriving DecidableEq, Repr

structure Assertion where
  subject : Subject
  conditions : Conditions
deriving DecidableEq, Repr

/-- Structured SAML response model (the `Response` type the source
unmarshals into), modelled from the spec: it contains an Assertion with
Conditions timestamps and identity claims sufficient to derive a user
identifier. -/
structure Response where
  assertion : Assertion
deriving DecidableEq, Repr

/-- Modelled from the spec: the concrete `*resp` implementation of the
`kolide.Auth` interface (not under src/), exposing the raw
transport-encoded payload, a status accessor, a status description and
the currently-held structured Response (the `setResponse` target). The
`status()` extraction result is carried as a field since its parsing code
is not under src/. -/
structure Resp where
  statusValue : Except Err Status
  statusDescriptionValue : String
  rawResponseValue : String
  response : Option Response
deriving DecidableEq, Repr

/-- Modelled from the spec: the user identifier derived from the held
structured Response's identity claims; empty when no Response is held
(the `*resp` implementation is not under src/). -/
def Resp.UserID (r : Resp) : String :=
  match r.response with
  | some resp => resp.assertion.subject.nameID
  | none => ""

/-- Modelled from the spec: the `kolide.Auth` interface value handed to the
validator. `resp` is the only concrete implementation in this fragment,
but at the interface type other implementations, and a nil interface
value, are possible; the validator's type assertion `auth.(*resp)` panics
on those. -/
inductive Auth where
  | resp (info : Resp)
  | otherImpl (impl : Nat)
  | nilInterface
deriving DecidableEq, Repr

/-- An X.509 certificate parsed from a key descriptor, abstract. -/
structure Cert where
  raw : String
deriving DecidableEq, Repr

structure KeyDescriptor where
  certData : String
deriving DecidableEq, Repr

structure IDPSSODescriptor where
  keyDescriptors : List KeyDescriptor
deriving DecidableEq, Repr

/-- IDP metadata shape (`gosamltypes.EntityDescriptor`), restricted to the
fields the source reads: `key.KeyInfo.X509Data.X509Certificate.Data` for
each key descriptor is flattened into `KeyDescriptor.certData`. -/
structure EntityDescriptor where
  idpSSODescriptor : IDPSSODescriptor
deriving DecidableEq, Repr

/-- Bundle of the external collaborators used by the validator. Each field
models one library function the source calls; the validator's theorems
quantify over this bundle, so they hold for every behaviour of the
libraries. -/
structure Ext where
  /-- models `xml.Unmarshal` into a `gosamltypes.EntityDescriptor` -/
  unmarshalMetadata : String → Except Err EntityDescriptor
  /-- models `base64.StdEncoding.DecodeString` -/
  base64Decode : String → Except Err String
  /-- models `x509.ParseCertificate` -/
  parseCert : String → Except Err Cert
  /-- models `dsig.NewRealClock().Now()` as an instant -/
  realClockNow : Int
  /-- models `etree.Document.ReadFromBytes` followed by `doc.Root()`; the
  first component is the parse error, the second the root element (which
  can be absent even when parsing succeeded, e.g. for an input holding
  only comments) -/
  readXml : String → Option Err × Option Xelem
  /-- models `etree.Document.WriteToBytes` on a document with the given
  root element (or with no root, when the root was unbound) -/
  writeDoc : Option Xelem → Except Err String
  /-- models `xml.Unmarshal` into the structured `Response` model -/
  unmarshalResponse : String → Except Err Response
  /-- models `dsig.ValidationContext.Validate`: on success it returns the
  validated element, a freshly built tree that never aliases its argument -/
  validate : Xelem → Except Err Xelem
  /-- models `etreeutils.NSDetatch`: the element detached with its minimal
  namespace context -/
  nsDetach : Xelem → Except Err Xelem
  /-- models `time.Parse (time.RFC3339, s)` as an instant -/
  parseTime : String → Except Err Int

/-- The `validator` struct: the dsig validation context and the external
libraries are carried in `ext`, `now` is the instant the configured clock
reports (`v.clock.Now()`), and `roots` is the trust store built from the
IDP metadata. -/
structure Validator where
  ext : Ext
  now : Int
  roots : List Cert

/-- Trust-store construction loop of `NewValidator`: for each key
descriptor, base64-decode the certificate data and parse it as X.509,
aborting on the first failure (`errors.Wrap` contexts as in the source). -/
def buildRoots (ext : Ext) : List KeyDescriptor → Except Err (List Cert)
  | [] => .ok []
  | k :: ks =>
    match ext.base64Decode k.certData with
    | .error e => .error (.wrap "decoding idp x509 cert" e)
    | .ok certData =>
      match ext.parseCert certData with
      | .error e => .error (.wrap "parsing idp x509 cert" e)
      | .ok cert =>
        match buildRoots ext ks with
        | .error e => .error e
        | .ok certs => .ok (cert :: certs)

/-- Constructor `NewValidator`: unmarshal the metadata, build the trust
store, apply the functional options (the only defined one injects a
clock; `clockOpt` models it) and fall back to the real clock when no
option set one. -/
def NewValidator (ext : Ext) (metadata : String) (clockOpt : Option Int) :
    Except Err Validator :=
  match ext.unmarshalMetadata metadata with
  | .error e => .error (.wrap "unmarshalling metadata" e)
  | .ok md =>
    match buildRoots ext md.idpSSODescriptor.keyDescriptors with
    | .error e => .error e
    | .ok roots =>
      .ok { ext := ext, now := clockOpt.getD ext.realClockNow, roots := roots }

/-- Outcome of `ValidateResponse`: the Go function either panics (failed
type assertion, nil dereference) or returns an error value (`none` is the
nil error). -/
inductive VrOutcome where
  | panics
  | ret (err : Option Err)
deriving DecidableEq, Repr

/-- Embedding of `validator.ValidateResponse`. `info := auth.(*resp)`
panics unless `auth` is a `*resp`; reading
`info.response.Assertion.Conditions` dereferences a nil pointer when no
Response is held. `currentTime.After(onOrAfter)` is the strict order
`onOrAfter < now`, `currentTime.Before(notBefore)` is `now < notBefore`. -/
def Validator.ValidateResponse (v : Validator) (auth : Auth) : VrOutcome :=
  match auth with
  | .otherImpl _ => .panics
  | .nilInterface => .panics
  | .resp info =>
    match info.response with
    | none => .panics
    | some r =>
      match v.ext.parseTime r.assertion.conditions.notOnOrAfter with
      | .error e => .ret (some (.wrap "missing timestamp from condition" e))
      | .ok onOrAfter =>
        match v.ext.parseTime r.assertion.conditions.notBefore with
        | .error e => .ret (some (.wrap "missing timestamp from condition" e))
        | .ok notBefore =>
          if onOrAfter < v.now then .ret (some (.msg "response expired"))
          else if v.now < notBefore then .ret (some (.msg "response too early"))
          else if info.UserID = "" then .ret (some (.msg "missing user id"))
          else .ret none

def assertionNamespace : String := "urn:oasis:names:tc:SAML:2.0:assertion"

def isAssertion (e : Xelem) : Bool :=
  e.ns == assertionNamespace && e.tag == "Assertion"

/-- Location of an element matched during `etreeutils.NSFindIterate`:
the element itself, whether its direct parent is the root element handed
to `validateAssertionSignature` (the source compares
`unverified.Parent() != elt` by pointer; a strict subtree can never equal
the whole tree, so the flag is determined at match time), and the parent's
tag (used in the error message). -/
structure Loc where
  elem : Xelem
  parentIsRoot : Bool
  parentTag : String
deriving DecidableEq, Repr

mutual

/-- Traversal step of `etreeutils.NSFindIterate` below the root: visit the
element (recording it when it is in the SAML assertion namespace with
local name Assertion), then its children in order. `parentIsRoot` and
`parentTag` describe the visited element's direct parent. -/
def findKid (parentIsRoot : Bool) (parentTag : String) : Xelem → List Loc
  | .node n t cs =>
    (if isAssertion (.node n t cs) then
      [⟨.node n t cs, parentIsRoot, parentTag⟩]
     else []) ++ findKids false t cs

def findKids (parentIsRoot : Bool) (parentTag : String) : Xlist → List Loc
  | .nil => []
  | .cons c cs =>
    findKid parentIsRoot parentTag c ++ findKids parentIsRoot parentTag cs

end

/-- All elements matched by
`etreeutils.NSFindIterate(elt, assertionNamespace, "Assertion", ...)` in
visit order. The traversal starts at `elt` itself, whose parent is the
document's own element (tag empty, and never equal to `elt`); an
element added to the tree by the handler is appended after the child
snapshot the traversal iterates over, so the matches are exactly those of
the original tree. -/
def findAssertions (elt : Xelem) : List Loc :=
  (if isAssertion elt then [⟨elt, false, ""⟩] else [])
    ++ findKids true elt.tag elt.children

/-- The `validateAssertion` closure inside
`validator.validateAssertionSignature`, acting on the current child list
of the captured root: reject any matched assertion whose parent is not
the root, otherwise detach it with its namespace context, validate the
detached copy, and on success replace the unverified original by the
validated copy (`RemoveChild` then `AddChild`, which appends). -/
def validateAssertion (ext : Ext) (children : Xlist) (l : Loc) :
    Except Err Xlist :=
  if l.parentIsRoot = false then
    .error (.msg ("assertion with unexpected parent: " ++ l.parentTag))
  else
    match ext.nsDetach l.elem with
    | .error e => .error e
    | .ok detached =>
      match ext.validate detached with
      | .error e => .error e
      | .ok signed =>
        .ok ((children.removeChild l.elem).append (.cons signed .nil))

/-- Sequential run of the `validateAssertion` handler over the matched
assertions, threading the root's child list; the first handler error
stops the iteration (`NSFindIterate` propagates it) and the child list
reached at that point is the state the tree is left in. -/
def runAssertions (ext : Ext) : List Loc → Xlist → Option Err × Xlist
  | [], children => (none, children)
  | l :: ls, children =>
    match validateAssertion ext children l with
    | .error e => (some e, children)
    | .ok children' => runAssertions ext ls children'

/-- Embedding of `validator.validateAssertionSignature`: run the handler
over every matched assertion; the returned child list is the final state
of `elt`'s children (the Go function mutates `elt` in place and returns
only the error). -/
def Validator.validateAssertionSignature (v : Validator) (elt : Xelem) :
    Option Err × Xlist :=
  runAssertions v.ext (findAssertions elt) elt.children

/-- Embedding of the private `validator.validateSignature`. The returned
flag records whether the returned element is the document's root object
(the fallback path returns `elt` itself, so the caller's
`signedDoc.SetRoot(signed)` unbinds the document's root; the
whole-document path returns the freshly built element produced by
`dsig.ValidationContext.Validate`, which never aliases `elt`). -/
def Validator.validateSignature (v : Validator) (elt : Xelem) :
    Except Err (Xelem × Bool) :=
  match v.ext.validate elt with
  | .ok validated => .ok (validated, false)
  | .error e =>
    if e = Err.missingSignature then
      match v.validateAssertionSignature elt with
      | (some e', _) => .error e'
      | (none, children') => .ok (elt.setChildren children', true)
    else .error e

/-- The tuple `(auth, err)` returned by `ValidateSignature`, plus the
final state of the `*resp` object (its mutation is visible to the
caller) and whether `setResponse` was invoked during the call. -/
structure VsReturn where
  auth : Option Resp
  err : Option Err
  state : Resp
  setResponseCalled : Bool
deriving DecidableEq, Repr

/-- Outcome of `ValidateSignature`: panic on a failed type assertion, or
a normal return. -/
inductive VsOutcome where
  | panics
  | ret (r : VsReturn)
deriving DecidableEq, Repr

/-- Embedding of `validator.ValidateSignature`, line by line. Notable
translations: in the XML-parse guard `err != nil || doc.Root() == nil`,
`errors.Wrap(nil, msg)` returns nil, so the no-root case returns a nil
error; `signedDoc.SetRoot(signed)` unbinds `signed` from its parent, so
when `signed` is the document root (fallback path) `doc` is left without
a root; and the buffer is produced by `doc.WriteToBytes()` — the source
serializes `doc`, not `signedDoc`. -/
def Validator.ValidateSignature (v : Validator) (auth : Auth) : VsOutcome :=
  match auth with
  | .otherImpl _ => .panics
  | .nilInterface => .panics
  | .resp info =>
    match info.statusValue with
    | .error _ => .ret ⟨none, some (.msg "missing or malformed response"), info, false⟩
    | .ok status =>
      if status ≠ Status.success then
        .ret ⟨none, some (.msg ("response status " ++ info.statusDescriptionValue)),
              info, false⟩
      else
        match v.ext.base64Decode info.rawResponseValue with
        | .error e => .ret ⟨none, some (.wrap "based64 decoding response" e), info, false⟩
        | .ok decoded =>
          match v.ext.readXml decoded with
          | (some e, _) => .ret ⟨none, some (.wrap "parsing xml response" e), info, false⟩
          | (none, none) => .ret ⟨none, none, info, false⟩
          | (none, some elt) =>
            match v.validateSignature elt with
            | .error e =>
              .ret ⟨none, some (.wrap "signing verification failed" e), info, false⟩
            | .ok (signed, signedIsDocRoot) =>
              let docRoot : Option Xelem := if signedIsDocRoot then none else some elt
              match v.ext.writeDoc docRoot with
              | .error e =>
                .ret ⟨none, some (.wrap "creating signed doc buffer" e), info, false⟩
              | .ok buffer =>
                match v.ext.unmarshalResponse buffer with
                | .error e =>
                  .ret ⟨none, some (.wrap "unmarshalling signed doc" e), info, false⟩
                | .ok response =>
                  let info' := { info with response := some response }
                  .ret ⟨some info', none, info', true⟩

/-- Modelled from the spec: "Re-serializes the (possibly assertion-pruned)
document and re-parses it into the structured Response model ... ensures
the structured model reflects exactly the verified bytes". This variant
differs from `Validator.ValidateSignature` in one step only: the buffer
is the serialization of the verified subtree returned by the Signature
Verifier (the root of `signedDoc`), not of `doc`. -/
def Validator.ValidateSignatureSpecced (v : Validator) (auth : Auth) : VsOutcome :=
  match auth with
  | .otherImpl _ => .panics
  | .nilInterface => .panics
  | .resp info =>
    match info.statusValue with
    | .error _ => .ret ⟨none, some (.msg "missing or malformed response"), info, false⟩
    | .ok status =>
      if status ≠ Status.success then
        .ret ⟨none, some (.msg ("response status " ++ info.statusDescriptionValue)),
              info, false⟩
      else
        match v.ext.base64Decode info.rawResponseValue with
        | .error e => .ret ⟨none, some (.wrap "based64 decoding response" e), info, false⟩
        | .ok decoded =>
          match v.ext.readXml decoded with
          | (some e, _) => .ret ⟨none, some (.wrap "parsing xml response" e), info, false⟩
          | (none, none) => .ret ⟨none, none, info, false⟩
          | (none, some elt) =>
            match v.validateSignature elt with
            | .error e =>
              .ret ⟨none, some (.wrap "signing verification failed" e), info, false⟩
            | .ok (signed, _) =>
              match v.ext.writeDoc (some signed) with
              | .error e =>
                .ret ⟨none, some (.wrap "creating signed doc buffer" e), info, false⟩
              | .ok buffer =>
                match v.ext.unmarshalResponse buffer with
                | .error e =>
                  .ret ⟨none, some (.wrap "unmarshalling signed doc" e), info, false⟩
                | .ok response =>
                  let info' := { info with response := some response }
                  .ret ⟨some info', none, info', true⟩

/-- List view of a child list, for membership statements. -/
def Xlist.toList : Xlist → List Xelem
  | .nil => []
  | .cons x xs => x :: xs.toList

/-- Default instantiation of the external collaborators, used as the base
of the concrete instances below: every operation fails (or is trivial),
and individual instances override the operations their scenario needs. -/
def extDefault : Ext := {
  unmarshalMetadata := fun _ => .error (.lib "bad metadata"),
  base64Decode := fun _ => .error (.lib "bad base64"),
  parseCert := fun _ => .error (.lib "bad cert"),
  realClockNow := 0,
  readXml := fun _ => (some (.lib "bad xml"), none),
  writeDoc := fun _ => .ok "",
  unmarshalResponse := fun _ => .error (.lib "EOF"),
  validate := fun _ => .error .missingSignature,
  nsDetach := fun e => .ok e,
  parseTime := fun _ => .error (.lib "bad time") }

/-- Structured response with the given derived user identifier and the
given Conditions timestamp strings. -/
def mkResponse (uid nb noa : String) : Response := ⟨⟨⟨uid⟩, ⟨nb, noa⟩⟩⟩

/-- Concrete scenario for C1: a whole-document-signed response where the
Signature Verifier returns a verified subtree (`verC1`) different from
the original document root (`eltC1`), and where original and verified
bytes re-parse to different structured Responses. -/
def eltC1 : Xelem :=
  .node "urn:p" "Response" (.cons (.node assertionNamespace "Assertion" .nil) .nil)

def verC1 : Xelem := .node "urn:p" "Response" .nil

def respOrigC1 : Response := mkResponse "original-uid" "T0" "T1"

def respVerC1 : Response := mkResponse "verified-uid" "T0" "T1"

def extC1 : Ext := { extDefault with
  base64Decode := fun s => if s = "RAW1" then .ok "XML1" else .error (.lib "bad base64"),
  readXml := fun s => if s = "XML1" then (none, some eltC1) else (some (.lib "bad xml"), none),
  validate := fun e => if e = eltC1 then .ok verC1 else .error (.lib "invalid signature"),
  writeDoc := fun r =>
    if r = some eltC1 then .ok "ORIGINAL-BYTES"
    else if r = some verC1 then .ok "VERIFIED-BYTES"
    else .ok "",
  unmarshalResponse := fun b =>
    if b = "ORIGINAL-BYTES" then .ok respOrigC1
    else if b = "VERIFIED-BYTES" then .ok respVerC1
    else .error (.lib "EOF") }

def infoC1 : Resp := ⟨.ok .success, "", "RAW1", none⟩

def valC1 : Validator := ⟨extC1, 0, []⟩

/-- Concrete scenario for C2: Conditions timestamps parsing to
NotBefore = 100 and NotOnOrAfter = 200, a non-empty user identifier, and
the clock reading exactly 200 (= NotOnOrAfter). -/
def extC2 : Ext := { extDefault with
  parseTime := fun s =>
    if s = "T0" then .ok 100
    else if s = "T1" then .ok 200
    else .error (.lib "bad time") }

def infoC2 : Resp := ⟨.ok .success, "", "", some (mkResponse "alice" "T0" "T1")⟩

def valC2 : Validator := ⟨extC2, 200, []⟩

/-- Concrete scenario for C3: a Success-status payload whose decoded bytes
parse without error but yield no root element (for example an input
holding only a comment). -/
def extC3 : Ext := { extDefault with
  base64Decode := fun s => if s = "RAW3" then .ok "COMMENT-ONLY" else .error (.lib "bad base64"),
  readXml := fun s => if s = "COMMENT-ONLY" then (none, none) else (some (.lib "bad xml"), none) }

def infoC3 : Resp := ⟨.ok .success, "", "RAW3", none⟩

def valC3 : Validator := ⟨extC3, 0, []⟩

/-- Concrete scenario for C4's witness: whole-document validation fails
with an error other than the missing-signature sentinel. -/
def extC4 : Ext := { extDefault with
  validate := fun _ => .error (.lib "untrusted certificate") }

def valC4 : Validator := ⟨extC4, 0, []⟩

def eltC4 : Xelem := .node "urn:p" "Response" .nil

/-- Assertion element and trees shared by the C5 and C7 scenarios. -/
def assertW : Xelem := .node assertionNamespace "Assertion" .nil

/-- Concrete scenario for C5's witness: the assertion is nested inside a
wrapper element, so its direct parent is not the root. -/
def wrapperC5 : Xelem := .node "urn:x" "Wrapper" (.cons assertW .nil)

def eltC5 : Xelem := .node "urn:x" "Response" (.cons wrapperC5 .nil)

def valC5 : Validator := ⟨extDefault, 0, []⟩

/-- Concrete scenario for C7: a single direct-child assertion whose
individual signature validation fails. -/
def eltC7 : Xelem := .node "urn:x" "Response" (.cons assertW .nil)

def extC7 : Ext := { extDefault with
  validate := fun _ => .error (.lib "invalid signature") }

def valC7 : Validator := ⟨extC7, 0, []⟩

/-- Concrete scenario for C6's witness: metadata with one good and one bad
key descriptor. -/
def mdC6 : EntityDescriptor := ⟨⟨[⟨"GOODCERT"⟩, ⟨"BADCERT"⟩]⟩⟩

def extC6 : Ext := { extDefault with
  unmarshalMetadata := fun s => if s = "METADATA" then .ok mdC6 else .error (.lib "bad metadata"),
  base64Decode := fun s => if s = "GOODCERT" then .ok "DER" else .error (.lib "bad base64"),
  parseCert := fun s => if s = "DER" then .ok ⟨"CERT"⟩ else .error (.lib "bad cert") }

/-- Concrete scenario for C8: Conditions timestamps parsing to
NotBefore = 400 and NotOnOrAfter = 1000, a non-empty user identifier, and
the clock reading exactly 1000 (= NotOnOrAfter), which is outside the
half-open window [400, 1000). -/
def extC8 : Ext := { extDefault with
  parseTime := fun s =>
    if s = "2020-01-01T00:00:00Z" then .ok 400
    else if s = "2020-01-01T00:10:00Z" then .ok 1000
    else .error (.lib "bad time") }

def respC8 : Response := mkResponse "bob" "2020-01-01T00:00:00Z" "2020-01-01T00:10:00Z"

def infoC8 : Resp := ⟨.ok .success, "", "", some respC8⟩

def valC8 : Validator := ⟨extC8, 1000, []⟩

/-- Concrete scenario for C9's witness: the status is a non-success code,
so `ValidateSignature` returns on an error path. -/
def infoC9 : Resp := ⟨.ok .requester, "Requester fault", "RAW9", none⟩

def valC9 : Validator := ⟨extDefault, 0, []⟩

/-- Helper: the handler rejects a matched assertion whose parent is not
the root, whatever the external libraries do. -/
theorem validateAssertion_badparent (ext : Ext) (children : Xlist) (l : Loc)
    (hpar : l.parentIsRoot = false) :
    validateAssertion ext children l =
      .error (.msg ("assertion with unexpected parent: " ++ l.parentTag)) := by
  simp [validateAssertion, hpar]

/-- Helper: if some matched assertion in the remaining list has a
non-root parent, the iteration ends in an error. -/
theorem runAssertions_fst_ne_none (ext : Ext) :
    ∀ (ls : List Loc) (children : Xlist) (l : Loc),
      l ∈ ls → l.parentIsRoot = false → (runAssertions ext ls children).1 ≠ none := by
  intro ls
  induction ls with
  | nil => intro children l h; exact absurd h (List.not_mem_nil l)
  | cons l0 ls ih =>
    intro children l hmem hpar
    rcases List.mem_cons.mp hmem with rfl | hmem'
    · rw [runAssertions, validateAssertion_badparent ext children l hpar]
      simp
    · rw [runAssertions]
      cases hva : validateAssertion ext children l0 with
      | error e => simp
      | ok children' => exact ih children' l hmem' hpar

/-- Helper: the trust-store loop succeeds exactly when every key
descriptor's certificate data decodes and parses. -/
theorem buildRoots_ok_iff (ext : Ext) (ks : List KeyDescriptor) :
    (∃ cs, buildRoots ext ks = .ok cs) ↔
      (∀ k ∈ ks, ∃ b c, ext.base64Decode k.certData = .ok b ∧ ext.parseCert b = .ok c) := by
  induction ks with
  | nil => simp [buildRoots]
  | cons k ks ih =>
    constructor
    · rintro ⟨cs, hcs⟩
      intro k' hk'
      rw [buildRoots] at hcs
      cases hb : ext.base64Decode k.certData with
      | error e => simp [hb] at hcs
      | ok decoded =>
        simp only [hb] at hcs
        cases hc : ext.parseCert decoded with
        | error e => simp [hc] at hcs
        | ok cert =>
          simp only [hc] at hcs
          cases hrest : buildRoots ext ks with
          | error e => simp [hrest] at hcs
          | ok certs =>
            rcases List.mem_cons.mp hk' with rfl | hk''
            · exact ⟨decoded, cert, hb, hc⟩
            · exact ih.mp ⟨certs, hrest⟩ k' hk''
    · intro hall
      obtain ⟨b, c, hb, hc⟩ := hall k (List.mem_cons_self k ks)
      obtain ⟨cs, hcs⟩ := ih.mpr (fun k' hk' => hall k' (List.mem_cons_of_mem k hk'))
      refine ⟨c :: cs, ?_⟩
      rw [buildRoots]
      simp only [hb, hc, hcs]

/-- Helper: every error the trust-store loop returns is a wrapped
certificate-decode or certificate-parse failure. -/
theorem buildRoots_error_kinds (ext : Ext) :
    ∀ (ks : List KeyDescriptor) (e : Err), buildRoots ext ks = .error e →
      (∃ e', e = .wrap "decoding idp x509 cert" e') ∨
      (∃ e', e = .wrap "parsing idp x509 cert" e') := by
  intro ks
  induction ks with
  | nil => intro e he; cases he
  | cons k ks ih =>
    intro e he
    rw [buildRoots] at he
    cases hb : ext.base64Decode k.certData with
    | error eb =>
      simp only [hb, Except.error.injEq] at he
      exact Or.inl ⟨eb, he.symm⟩
    | ok decoded =>
      simp only [hb] at he
      cases hc : ext.parseCert decoded with
      | error ec =>
        simp only [hc, Except.error.injEq] at he
        exact Or.inr ⟨ec, he.symm⟩
      | ok cert =>
        simp only [hc] at he
        cases hrest : buildRoots ext ks with
        | error er =>
          simp only [hrest, Except.error.injEq] at he
          cases he
          exact ih _ hrest
        | ok certs => simp [hrest] at he

/-- C1: the claim says the Response stored onto the Auth object is the
re-parse of the re-serialized verified subtree returned by the Signature
Verifier. The source instead serializes `doc` (the pre-verification
document) — `buffer, err := doc.WriteToBytes()` — while the freshly
built `signedDoc` holding the verified subtree is never read. At this
input the verifier returns a verified subtree differing from the
original document, the code stores the re-parse of the ORIGINAL bytes,
and the spec-modelled variant stores the re-parse of the verified bytes;
the two differ. -/
theorem C1_stored_response_is_prevalidation_bytes :
    valC1.ValidateSignature (Auth.resp infoC1) =
      .ret ⟨some { infoC1 with response := some respOrigC1 }, none,
            { infoC1 with response := some respOrigC1 }, true⟩ ∧
    valC1.ValidateSignatureSpecced (Auth.resp infoC1) =
      .ret ⟨some { infoC1 with response := some respVerC1 }, none,
            { infoC1 with response := some respVerC1 }, true⟩ ∧
    respOrigC1 ≠ respVerC1 := by
  refine ⟨by decide, by decide, by decide⟩

/-- C2: the claim says the validity window is half-open, with
`ResponseExpiredError` when the clock reads exactly NotOnOrAfter. The
source checks `currentTime.After(onOrAfter)`, a strict comparison, so at
a clock reading exactly equal to NotOnOrAfter (here 200) it returns a
nil error instead of the expired error. -/
theorem C2_accepts_at_exactly_notOnOrAfter :
    extC2.parseTime "T1" = .ok 200 ∧ valC2.now = 200 ∧
    valC2.ValidateResponse (Auth.resp infoC2) = .ret none ∧
    valC2.ValidateResponse (Auth.resp infoC2) ≠ .ret (some (.msg "response expired")) := by
  refine ⟨by decide, rfl, by decide, by decide⟩

/-- C3: the claim says that when the decoded bytes parse to a document
with no root element, `ValidateSignature` returns a non-nil error. In the
source the guard `err != nil || doc.Root() == nil` returns
`errors.Wrap(err, ...)` with `err == nil` in the no-root case, and
`errors.Wrap(nil, msg)` is nil: the call returns a nil Auth AND a nil
error. -/
theorem C3_no_root_returns_nil_error :
    valC3.ValidateSignature (Auth.resp infoC3) = .ret ⟨none, none, infoC3, false⟩ := by
  decide

/-- C4: per-assertion fallback happens if and only if whole-document
validation fails with the missing-signature sentinel: a whole-document
success returns the validated element immediately, any other
whole-document error is returned as a hard failure, and the
missing-signature error alone routes into per-assertion validation. -/
theorem C4_fallback_iff_missing_signature (v : Validator) (elt : Xelem) :
    (∀ validated, v.ext.validate elt = .ok validated →
        v.validateSignature elt = .ok (validated, false)) ∧
    (∀ e, v.ext.validate elt = .error e → e ≠ Err.missingSignature →
        v.validateSignature elt = .error e) ∧
    (v.ext.validate elt = .error Err.missingSignature →
        v.validateSignature elt =
          match v.validateAssertionSignature elt with
          | (some e', _) => .error e'
          | (none, children') => .ok (elt.setChildren children', true)) := by
  refine ⟨fun validated h => ?_, fun e h hne => ?_, fun h => ?_⟩
  · simp [Validator.validateSignature, h]
  · simp [Validator.validateSignature, h, hne]
  · simp [Validator.validateSignature, h]

theorem C4_witness :
    valC4.validateSignature eltC4 = .error (.lib "untrusted certificate") :=
  (C4_fallback_iff_missing_signature valC4 eltC4).2.1 (.lib "untrusted certificate")
    rfl (by decide)

/-- C5: every matched element in the SAML assertion namespace with local
name Assertion whose direct parent is not the root is rejected by the
handler with the unexpected-parent error — for every behaviour of the
external libraries, in particular even when its individual signature
would validate — and the presence of such an assertion makes the
per-assertion validation return an error. -/
theorem C5_nested_assertion_rejected (v : Validator) (elt : Xelem) (l : Loc)
    (hmem : l ∈ findAssertions elt) (hpar : l.parentIsRoot = false) :
    (∀ (ext : Ext) (children : Xlist),
        validateAssertion ext children l =
          .error (.msg ("assertion with unexpected parent: " ++ l.parentTag))) ∧
    (v.validateAssertionSignature elt).1 ≠ none := by
  constructor
  · intro ext children
    exact validateAssertion_badparent ext children l hpar
  · exact runAssertions_fst_ne_none v.ext (findAssertions elt) elt.children l hmem hpar

theorem C5_witness :
    validateAssertion extC7 eltC5.children ⟨assertW, false, "Wrapper"⟩ =
      .error (.msg ("assertion with unexpected parent: " ++ "Wrapper")) ∧
    (valC5.validateAssertionSignature eltC5).1 ≠ none :=
  ⟨(C5_nested_assertion_rejected valC5 eltC5 ⟨assertW, false, "Wrapper"⟩
      (by decide) rfl).1 extC7 eltC5.children,
   (C5_nested_assertion_rejected valC5 eltC5 ⟨assertW, false, "Wrapper"⟩
      (by decide) rfl).2⟩

/-- C6: once the metadata unmarshals, `NewValidator` succeeds exactly
when every key descriptor's certificate data base64-decodes and parses
as X.509 — so any failing certificate aborts construction with no
validator returned (never skipped) — and every construction error
arising from the certificate loop is a wrapped decode or parse
failure. -/
theorem C6_trust_store_fail_closed (ext : Ext) (metadata : String)
    (md : EntityDescriptor) (hmd : ext.unmarshalMetadata metadata = .ok md) :
    ((∃ v, NewValidator ext metadata none = .ok v) ↔
      (∀ k ∈ md.idpSSODescriptor.keyDescriptors,
        ∃ b c, ext.base64Decode k.certData = .ok b ∧ ext.parseCert b = .ok c)) ∧
    (∀ e, NewValidator ext metadata none = .error e →
      (∃ e', e = .wrap "decoding idp x509 cert" e') ∨
      (∃ e', e = .wrap "parsing idp x509 cert" e')) := by
  constructor
  · rw [← buildRoots_ok_iff]
    constructor
    · rintro ⟨v, hv⟩
      unfold NewValidator at hv
      simp only [hmd] at hv
      cases hbr : buildRoots ext md.idpSSODescriptor.keyDescriptors with
      | error e => simp [hbr] at hv
      | ok cs => exact ⟨cs, rfl⟩
    · rintro ⟨cs, hcs⟩
      have hok : NewValidator ext metadata none =
          .ok { ext := ext, now := Option.getD none ext.realClockNow, roots := cs } := by
        unfold NewValidator
        simp only [hmd, hcs]
      exact ⟨_, hok⟩
  · intro e he
    unfold NewValidator at he
    simp only [hmd] at he
    cases hbr : buildRoots ext md.idpSSODescriptor.keyDescriptors with
    | error e0 =>
      simp only [hbr, Except.error.injEq] at he
      cases he
      exact buildRoots_error_kinds ext _ _ hbr
    | ok cs => simp [hbr] at he

theorem C6_witness :
    ¬ ∃ v, NewValidator extC6 "METADATA" none = .ok v := by
  intro hex
  have h := (C6_trust_store_fail_closed extC6 "METADATA" mdC6 rfl).1.mp hex
  obtain ⟨b, c, hbc, -⟩ := h ⟨"BADCERT"⟩ (by decide)
  have hbad : extC6.base64Decode "BADCERT" = .error (.lib "bad base64") := by decide
  rw [hbad] at hbc
  cases hbc

/-- C7 counterexample: the claim says the invalid assertion is removed
from the tree structure being built before the failure is returned. At
this input (one direct-child assertion whose individual validation
fails) the operation returns the error with the child list it was
iterating over left exactly as it was: the failing assertion is still
present, because the source returns the validation error before the
`RemoveChild` call. -/
theorem C7_counterexample_assertion_not_removed :
    valC7.validateAssertionSignature eltC7 =
      (some (.lib "invalid signature"), eltC7.children) ∧
    assertW ∈ (valC7.validateAssertionSignature eltC7).2.toList := by
  refine ⟨by decide, by decide⟩

/-- C7 (amended): when the iteration reaches a located assertion whose
handler fails, the overall operation returns that error — there is no
partial-success outcome keeping the validly signed assertions — and the
child list being built is returned unchanged by the failing step: the
invalid assertion is NOT removed; removal-and-replacement happens only
for assertions that validate successfully. -/
theorem C7_failing_assertion_fails_whole_operation (ext : Ext) (l : Loc)
    (ls : List Loc) (children : Xlist) (e : Err)
    (hfail : validateAssertion ext children l = .error e) :
    runAssertions ext (l :: ls) children = (some e, children) ∧
    (∀ (v : Validator) (elt : Xelem), v.ext = ext → findAssertions elt = l :: ls →
        elt.children = children → v.validateAssertionSignature elt = (some e, children)) := by
  constructor
  · rw [runAssertions, hfail]
  · intro v elt hv hfa hch
    rw [Validator.validateAssertionSignature, hv, hfa, hch, runAssertions, hfail]

theorem C7_witness :
    runAssertions extC7 [⟨assertW, true, "Response"⟩] eltC7.children =
      (some (.lib "invalid signature"), eltC7.children) :=
  (C7_failing_assertion_fails_whole_operation extC7 ⟨assertW, true, "Response"⟩ []
    eltC7.children (.lib "invalid signature") (by decide)).1

/-- C8: the claim says `ValidateResponse` returns no error only when (in
particular) the current clock time lies within the validity window,
which the spec fixes as the half-open interval
[NotBefore, NotOnOrAfter). At a clock reading exactly equal to
NotOnOrAfter (1000, outside the half-open window) with parseable
timestamps and a non-empty user identifier, the source returns a nil
error, because its expiry check `currentTime.After(onOrAfter)` is
strict. -/
theorem C8_nil_error_outside_half_open_window :
    valC8.ValidateResponse (Auth.resp infoC8) = .ret none ∧
    extC8.parseTime respC8.assertion.conditions.notOnOrAfter = .ok 1000 ∧
    valC8.now = 1000 ∧
    infoC8.UserID ≠ "" := by
  refine ⟨by decide, by decide, rfl, by decide⟩

/-- C9: whenever `ValidateSignature` on a `*resp` returns a non-nil
error, the returned Auth is nil, the held structured Response (the whole
`*resp` state) is unchanged, and `setResponse` was not invoked;
`setResponse` is invoked only on the all-checks-passed success path,
where the error is nil and the returned Auth is the mutated `*resp`. -/
theorem C9_error_path_mutates_nothing (v : Validator) (info : Resp) (r : VsReturn)
    (h : v.ValidateSignature (Auth.resp info) = .ret r) :
    (r.err ≠ none → r.auth = none ∧ r.state = info ∧ r.setResponseCalled = false) ∧
    (r.setResponseCalled = true → r.err = none ∧ r.auth = some r.state) := by
  unfold Validator.ValidateSignature at h
  dsimp only at h
  repeat' split at h
  all_goals (injection h with h2; subst h2; constructor <;> intro h1 <;> simp_all)

theorem C9_witness :
    (⟨none, some (.msg "response status Requester fault"), infoC9, false⟩ : VsReturn).auth
        = none ∧
    (⟨none, some (.msg "response status Requester fault"), infoC9, false⟩ : VsReturn).state
        = infoC9 ∧
    (⟨none, some (.msg "response status Requester fault"), infoC9, false⟩ : VsReturn).setResponseCalled
        = false :=
  (C9_error_path_mutates_nothing valC9 infoC9
    ⟨none, some (.msg "response status Requester fault"), infoC9, false⟩
    (by decide)).1 (by decide)

/-- C10: both public operations begin with the unchecked type assertion
`auth.(*resp)`: on any other implementation of the Auth interface, and
on a nil interface value, they panic instead of returning an error. -/
theorem C10_type_assertion_panics (v : Validator) :
    (∀ n, v.ValidateSignature (Auth.otherImpl n) = .panics) ∧
    v.ValidateSignature Auth.nilInterface = .panics ∧
    (∀ n, v.ValidateResponse (Auth.otherImpl n) = .panics) ∧
    v.ValidateResponse Auth.nilInterface = .panics :=
  ⟨fun _ => rfl, rfl, fun _ => rfl, rfl⟩

end Sso
